import Mathlib

set_option linter.unusedVariables false

/-! Shallow embedding of the menu navigation engine in
`src/interface/menu_handler.py` and of the parts of the `Budget` class in
`src/mods/budget/budget_handler.py` that the verified claims concern.
Machine-level caveat: Python strings are modelled over ASCII, so
`str.isdigit` is the ASCII decimal-digit test. -/

/-- The ASCII single-quote character, used to build the text of Python
f-strings that wrap a value in single quotes. -/
def squote : String := String.singleton (Char.ofNat 39)

/-- Wrap a string in single quotes, as the f-string
`f"'{description}' is not a valid option."` in `get_user_choice` does. -/
def quoted (s : String) : String := squote ++ s ++ squote

/-- A Python value bound in the `action` slot of a menu tuple in
`menu_holder`: a plain function reference (including the builtin `exit`
and lambdas that capture nothing), a lambda closing over `active_user`,
or a non-callable placeholder string such as the `'test'` entries of the
`Budgeted` menu. -/
inductive PyAction where
  | func (name : String)
  | closure (name : String) (active_user : Option String)
  | strVal (s : String)
deriving DecidableEq

/-- Python `callable(action)`: function references and lambda closures are
callable, strings are not. -/
def callable : PyAction → Bool
  | PyAction.func _ => true
  | PyAction.closure _ _ => true
  | PyAction.strVal _ => false

/-- One numbered menu tuple `(number, description, action)` as stored in
the lists of `menu_holder`. -/
structure MenuOption where
  number : Int
  description : String
  action : PyAction
deriving DecidableEq

/-- Python exceptions that one iteration of the `get_user_choice` loop body
can raise: `TypeError` from calling the non-callable list object
`choices_and_funcs()`, `IndexError` from list indexing. -/
inductive PyExc where
  | typeError
  | indexError
deriving DecidableEq

/-- Control-flow outcome of one iteration of a Python `while True:` body:
fall through / `continue` back to the top, `break` out, `return` from the
enclosing function, or an uncaught exception propagating out. -/
inductive Ctrl where
  | continueLoop
  | breakLoop
  | ret
  | raiseExc (e : PyExc)
deriving DecidableEq

/-- Observable result of one iteration of the `get_user_choice` body:
the `print` output, the actions called, and how control leaves the
iteration. -/
structure StepOut where
  printed : List String
  invoked : List PyAction
  ctrl : Ctrl
deriving DecidableEq

/-- Python `str.isdigit` over ASCII: nonempty and every character a
decimal digit. -/
def isdigit (s : String) : Bool := !s.toList.isEmpty && s.toList.all Char.isDigit

/-- Accumulate one decimal digit, as `int()` does across a digit string. -/
def accDigit (a : Nat) (c : Char) : Nat := a * 10 + (c.toNat - 48)

/-- Python `int()` applied to a string satisfying `isdigit`. -/
def strToNat (s : String) : Nat := s.toList.foldl accDigit 0

/-- One iteration of the body of the `while True:` loop in
`get_user_choice`, applied to the line returned by `input('Choice: ')`.
The source guards the single-option case with a plain `if` (not `elif`);
because calling the list object `choices_and_funcs()` raises `TypeError`,
the statements after it are unreachable in that case, which the `else`
chain here reflects. -/
def get_user_choice_step (choices_and_funcs : List MenuOption) (string_choice : String) : StepOut :=
  if isdigit string_choice then
    let int_choice := strToNat string_choice
    if choices_and_funcs.length = 1 then
      { printed := [], invoked := [], ctrl := Ctrl.raiseExc PyExc.typeError }
    else if 1 ≤ int_choice ∧ int_choice ≤ choices_and_funcs.length then
      match choices_and_funcs.get? (int_choice - 1) with
      | some t =>
          if callable t.action then
            { printed := [], invoked := [t.action], ctrl := Ctrl.continueLoop }
          else
            { printed := [quoted t.description ++ " is not a valid option."],
              invoked := [], ctrl := Ctrl.continueLoop }
      | none =>
          { printed := [], invoked := [], ctrl := Ctrl.raiseExc PyExc.indexError }
    else
      { printed := ["Invalid choice. Please select a valid number."],
        invoked := [], ctrl := Ctrl.continueLoop }
  else
    { printed := ["Invalid input. Please enter a number."],
      invoked := [], ctrl := Ctrl.continueLoop }

/-- The menu registry built by `menu_holder(active_user=None)`. Plain
function references (and lambdas capturing nothing) are `PyAction.func`;
lambdas closing over `active_user` are `PyAction.closure` carrying the
captured value; the placeholder strings of the `Budgeted` menu are
`PyAction.strVal`. -/
def menu_holder (active_user : Option String) : List (String × List MenuOption) :=
  [("Main Menu",
     [⟨1, "Choose Account", PyAction.func "display_account_list"⟩,
      ⟨2, "Create Account", PyAction.func "create_new_account_interface"⟩,
      ⟨3, "Exit", PyAction.func "exit"⟩]),
   ("Create Account",
     [⟨1, "Run Create Account Program", PyAction.func "create_new_account_interface"⟩,
      ⟨2, "Return to Main Menu", PyAction.func "main_menu"⟩]),
   ("User Account Menu",
     [⟨1, "View Balances", PyAction.closure "transaction_view_balance" active_user⟩,
      ⟨2, "Deposit", PyAction.closure "transaction_interaction.deposit" active_user⟩,
      ⟨3, "Withdrawal", PyAction.closure "transaction_interaction.withdrawal" active_user⟩,
      ⟨4, "View Bill Tracker", PyAction.closure "menu_maker.Bill Tracker" active_user⟩,
      ⟨5, "View Budget", PyAction.closure "menu_maker.Budgeted" active_user⟩,
      ⟨6, "Personal Market Watch", PyAction.closure "menu_maker.Personal Market Watch" active_user⟩,
      ⟨7, "Return to Main Menu", PyAction.func "main_menu"⟩]),
   ("Bill Tracker",
     [⟨1, "Add Bill", PyAction.closure "user_add_bill" active_user⟩,
      ⟨2, "Remove Bill", PyAction.closure "user_remove_bill" active_user⟩,
      ⟨3, "View Current List of All Bills", PyAction.closure "user_get_bill_reminders" active_user⟩,
      ⟨4, "Return to Main Menu", PyAction.func "main_menu"⟩]),
   ("Budgeted",
     [⟨1, "Current Budget", PyAction.strVal "test"⟩,
      ⟨2, "New Budget", PyAction.strVal "test"⟩,
      ⟨3, "Remove Budget", PyAction.strVal "test"⟩,
      ⟨4, "Update Budget", PyAction.strVal "test"⟩,
      ⟨5, "Return to Main Menu", PyAction.func "main_menu"⟩]),
   ("Personal Market Watch",
     [⟨1, "Indexes - Global", PyAction.func "user_view_global_indexes"⟩,
      ⟨2, "Indexes - By Region", PyAction.func "user_view_indexes_by_region"⟩,
      ⟨3, "Set Favorite Index" ++ squote ++ "s", PyAction.func "user_set_favorite_index"⟩,
      ⟨4, "Indexes - Favorites", PyAction.func "user_view_favorite_index"⟩,
      ⟨5, "Stocks - Watch List", PyAction.func "user_view_stock_watchlist"⟩,
      ⟨6, "Stocks - Add to Watchlist", PyAction.func "user_add_to_stock_watchlist"⟩,
      ⟨7, "Search Stock data", PyAction.func "user_search_stock_data"⟩,
      ⟨8, "Return to Main Menu", PyAction.func "main_menu"⟩])]

/-- Decimal digit character, least significant digit of a value below ten. -/
def digitChar : Nat → Char
  | 0 => Char.ofNat 48
  | 1 => Char.ofNat 49
  | 2 => Char.ofNat 50
  | 3 => Char.ofNat 51
  | 4 => Char.ofNat 52
  | 5 => Char.ofNat 53
  | 6 => Char.ofNat 54
  | 7 => Char.ofNat 55
  | 8 => Char.ofNat 56
  | 9 => Char.ofNat 57
  | _ => Char.ofNat 63

/-- Little-endian decimal digits of `m`, computed with explicit fuel so the
definition is structural (the fuel is always at least `m`). -/
def natToRevDigitsFuel : Nat → Nat → List Char
  | _, 0 => []
  | 0, _ + 1 => []
  | fuel + 1, m + 1 => digitChar ((m + 1) % 10) :: natToRevDigitsFuel fuel ((m + 1) / 10)

/-- Python `str()` applied to a non-negative integer. -/
def natRepr (n : Nat) : String :=
  if n = 0 then "0" else String.mk (natToRevDigitsFuel n n).reverse

/-- Python `str()` applied to an arbitrary integer: a leading minus sign
for negative values. -/
def pyStr (i : Int) : String :=
  if i < 0 then String.mk (Char.ofNat 45 :: (natRepr i.natAbs).toList) else natRepr i.toNat

/-- String constants imported in `budget_handler.py` via
`from data_handler.variables.constants import *`; that module is not in
the source tree, so each constant is modelled as a distinct string token.
The verified claims examine only `ADD` and `REMOVE`, and only through
(in)equality of the dispatch argument with them. -/
def ESSENTIAL_EXPENSES : String := "ESSENTIAL_EXPENSES"

def HOUSING : String := "HOUSING"

def UTILITIES : String := "UTILITIES"

def GROCERIES : String := "GROCERIES"

def TRANSPORTATION : String := "TRANSPORTATION"

def INSURANCE : String := "INSURANCE"

def HEALTHCARE : String := "HEALTHCARE"

def DEBT_PAYMENTS : String := "DEBT_PAYMENTS"

def NON_ESSENTIAL_EXPENSES : String := "NON_ESSENTIAL_EXPENSES"

def DINING_OUT : String := "DINING_OUT"

def ENTERTAINMENT : String := "ENTERTAINMENT"

def PERSONAL_CARE : String := "PERSONAL_CARE"

def CLOTHING : String := "CLOTHING"

def EDUCATION : String := "EDUCATION"

def HOBBIES_AND_LEISURE : String := "HOBBIES_AND_LEISURE"

def TRAVEL_VACATIONS : String := "TRAVEL_VACATIONS"

def GIFTS_DONATIONS : String := "GIFTS_DONATIONS"

def SAVINGS_AND_INVESTMENTS : String := "SAVINGS_AND_INVESTMENTS"

def EMERGENCY_FUND : String := "EMERGENCY_FUND"

def RETIREMENT_SAVINGS : String := "RETIREMENT_SAVINGS"

def INVESTMENTS : String := "INVESTMENTS"

def EDUCATION_SAVINGS : String := "EDUCATION_SAVINGS"

def MAJOR_PURCHASES : String := "MAJOR_PURCHASES"

def ADD : String := "ADD"

def REMOVE : String := "REMOVE"

/-- Python values held in the list fields of `Budget`: strings, numbers,
and the two-key dictionaries `{'debt_name': ..., 'debt_total': ...}` that
the ADD branch of `add_remove_debt` appends. Equality is Python `==`:
structural within a kind, `False` across kinds. -/
inductive PyVal where
  | str (s : String)
  | num (q : ℚ)
  | debtDict (debt_name : PyVal) (debt_total : PyVal)
deriving DecidableEq

/-- Whether a value is one of the debt dictionaries built by the ADD
branch of `add_remove_debt`. -/
def isDebtDict : PyVal → Bool
  | PyVal.debtDict _ _ => true
  | _ => false

/-- State of a `Budget` instance: the fields assigned in
`Budget.__init__`, with Python numbers modelled as rationals. -/
structure Budget where
  monthly_income : ℚ
  expenses : List PyVal
  expense_budget_category : List (String × List String)
  budgets : List PyVal
  budget_alerts : List PyVal
  current_debt : List PyVal
  total_debt : ℚ
  assets : ℚ
  checking_balance : ℚ
  savings_balance : ℚ
  credit_card_balances : List ℚ
  credit_card_limits : List ℚ
  net_worth : ℚ
deriving DecidableEq

/-- A freshly constructed `Budget`, mirroring `Budget.__init__`. -/
def Budget.new : Budget where
  monthly_income := 0
  expenses := []
  expense_budget_category :=
    [(ESSENTIAL_EXPENSES,
       [HOUSING, UTILITIES, GROCERIES, TRANSPORTATION, INSURANCE, HEALTHCARE, DEBT_PAYMENTS]),
     (NON_ESSENTIAL_EXPENSES,
       [DINING_OUT, ENTERTAINMENT, PERSONAL_CARE, CLOTHING, EDUCATION, HOBBIES_AND_LEISURE,
        TRAVEL_VACATIONS, GIFTS_DONATIONS]),
     (SAVINGS_AND_INVESTMENTS,
       [EMERGENCY_FUND, RETIREMENT_SAVINGS, INVESTMENTS, EDUCATION_SAVINGS, MAJOR_PURCHASES])]
  budgets := []
  budget_alerts := []
  current_debt := []
  total_debt := 0
  assets := 0
  checking_balance := 0
  savings_balance := 0
  credit_card_balances := []
  credit_card_limits := []
  net_worth := 0

/-- Python errors raised by the `Budget` arithmetic methods. -/
inductive PyErr where
  | zeroDivisionError
deriving DecidableEq

/-- `Budget.debt_to_asset(self, total_debt, total_assets)`: the body reads
`(self.total_debt / self.assets) * 100`, never its two parameters; Python
raises `ZeroDivisionError` when `self.assets` is zero. -/
def Budget.debt_to_asset (b : Budget) (total_debt total_assets : ℚ) : Except PyErr ℚ :=
  if b.assets = 0 then Except.error PyErr.zeroDivisionError
  else Except.ok ((b.total_debt / b.assets) * 100)

/-- `Budget.add_remove_debt(self, debt_name, debt_total, add_or_remove)`:
returns the updated instance state together with the `print` output.
`list.remove` and the membership test `in` both use Python `==`, which
`DecidableEq PyVal` models (cross-kind comparisons are `False`). -/
def Budget.add_remove_debt (b : Budget) (debt_name debt_total : PyVal)
    (add_or_remove : String) : Budget × List String :=
  if add_or_remove = ADD then
    ({ b with current_debt := b.current_debt ++ [PyVal.debtDict debt_name debt_total] }, [])
  else if add_or_remove = REMOVE then
    if debt_name ∈ b.current_debt then
      ({ b with current_debt := b.current_debt.erase debt_name }, [])
    else
      (b, ["Debt not found."])
  else
    (b, ["Please enter a valid choice."])

/-- A representative two-option menu with callable actions, used to
instantiate the verified properties on concrete inputs. -/
def optsAB : List MenuOption :=
  [⟨1, "A", PyAction.func "fa"⟩, ⟨2, "B", PyAction.func "fb"⟩]

/-- The option list of the `Budgeted` menu, exactly as `menu_holder`
builds it. -/
def budgetedOpts : List MenuOption :=
  [⟨1, "Current Budget", PyAction.strVal "test"⟩,
   ⟨2, "New Budget", PyAction.strVal "test"⟩,
   ⟨3, "Remove Budget", PyAction.strVal "test"⟩,
   ⟨4, "Update Budget", PyAction.strVal "test"⟩,
   ⟨5, "Return to Main Menu", PyAction.func "main_menu"⟩]

/-- A `Budget` whose `current_debt` holds one entry appended by the ADD
branch of `add_remove_debt`. -/
def debtSample : Budget :=
  { Budget.new with
    current_debt := [PyVal.debtDict (PyVal.str "credit card") (PyVal.num 3000)] }

/-! Helper lemmas about the decimal representation `natRepr` / `pyStr`. -/

/-- Value of a little-endian digit list under the `int()` accumulator. -/
def valRev : List Char → Nat
  | [] => 0
  | c :: cs => (c.toNat - 48) + 10 * valRev cs

theorem digitChar_isDigit : ∀ d : Nat, d < 10 → (digitChar d).isDigit = true := by decide

theorem digitChar_val : ∀ d : Nat, d < 10 → (digitChar d).toNat - 48 = d := by decide

theorem natToRevDigitsFuel_all (fuel : Nat) :
    ∀ m : Nat, (natToRevDigitsFuel fuel m).all Char.isDigit = true := by
  induction fuel with
  | zero => intro m; cases m <;> rfl
  | succ f ih =>
      intro m
      cases m with
      | zero => rfl
      | succ k =>
          simp only [natToRevDigitsFuel, List.all_cons]
          rw [digitChar_isDigit _ (Nat.mod_lt _ (by decide)), ih]
          rfl

theorem natToRevDigitsFuel_val (fuel : Nat) :
    ∀ m : Nat, m ≤ fuel → valRev (natToRevDigitsFuel fuel m) = m := by
  induction fuel with
  | zero =>
      intro m hm
      have : m = 0 := Nat.le_zero.mp hm
      subst this; rfl
  | succ f ih =>
      intro m hm
      cases m with
      | zero => rfl
      | succ k =>
          have hdiv : (k + 1) / 10 ≤ f := by
            have h1 : (k + 1) / 10 < k + 1 := Nat.div_lt_self (Nat.succ_pos k) (by decide)
            omega
          simp only [natToRevDigitsFuel, valRev]
          rw [digitChar_val _ (Nat.mod_lt _ (by decide)), ih _ hdiv]
          omega

theorem foldl_accDigit_reverse (l : List Char) :
    ∀ a : Nat, (l.reverse).foldl accDigit a = a * 10 ^ l.length + valRev l := by
  induction l with
  | nil => intro a; simp [valRev]
  | cons c cs ih =>
      intro a
      simp only [List.reverse_cons, List.foldl_append, ih, List.foldl_cons, List.foldl_nil,
        valRev, List.length_cons, accDigit]
      ring

theorem all_rev (p : Char → Bool) (l : List Char) : l.reverse.all p = l.all p := by
  induction l with
  | nil => rfl
  | cons c cs ih =>
      simp only [List.reverse_cons, List.all_append, List.all_cons, List.all_nil, ih]
      cases p c <;> cases cs.all p <;> rfl

theorem isEmpty_false_of_ne_nil (l : List Char) (h : l ≠ []) : l.isEmpty = false := by
  cases l with
  | nil => exact absurd rfl h
  | cons a as => rfl

theorem natRepr_isdigit (n : Nat) : isdigit (natRepr n) = true := by
  cases n with
  | zero => decide
  | succ k =>
      have hshape : natToRevDigitsFuel (k + 1) (k + 1) =
          digitChar ((k + 1) % 10) :: natToRevDigitsFuel k ((k + 1) / 10) := rfl
      have hne : (natToRevDigitsFuel (k + 1) (k + 1)).reverse ≠ [] := by
        rw [hshape]; simp
      simp only [isdigit, natRepr, Nat.succ_ne_zero, if_false, String.toList]
      rw [isEmpty_false_of_ne_nil _ hne, all_rev, natToRevDigitsFuel_all]
      rfl

theorem natRepr_val (n : Nat) : strToNat (natRepr n) = n := by
  cases n with
  | zero => decide
  | succ k =>
      simp only [strToNat, natRepr, Nat.succ_ne_zero, if_false, String.toList]
      rw [foldl_accDigit_reverse, natToRevDigitsFuel_val (k + 1) (k + 1) (Nat.le_refl _)]
      simp

theorem pyStr_nonneg (i : Int) (h : 0 ≤ i) : pyStr i = natRepr i.toNat := by
  simp [pyStr, Int.not_lt.mpr h]

theorem pyStr_neg_isdigit (i : Int) (h : i < 0) : isdigit (pyStr i) = false := by
  simp only [pyStr, if_pos h, isdigit, String.toList, List.all_cons]
  have : (Char.ofNat 45).isDigit = false := by decide
  rw [this]
  rfl

/-! Helper lemmas about one iteration of the `get_user_choice` loop body. -/

theorem step_not_digit (opts : List MenuOption) (s : String) (h : isdigit s = false) :
    get_user_choice_step opts s =
      { printed := ["Invalid input. Please enter a number."],
        invoked := [], ctrl := Ctrl.continueLoop } := by
  simp [get_user_choice_step, h]

theorem step_in_range (opts : List MenuOption) (s : String) (t : MenuOption)
    (hd : isdigit s = true) (hlen : opts.length ≠ 1)
    (h1 : 1 ≤ strToNat s) (h2 : strToNat s ≤ opts.length)
    (hget : opts.get? (strToNat s - 1) = some t) :
    get_user_choice_step opts s =
      (if callable t.action then
        { printed := [], invoked := [t.action], ctrl := Ctrl.continueLoop }
       else
        { printed := [quoted t.description ++ " is not a valid option."],
          invoked := [], ctrl := Ctrl.continueLoop }) := by
  have hget2 : opts[strToNat s - 1]? = some t := by
    simpa [List.get?_eq_getElem?] using hget
  simp [get_user_choice_step, hd, hlen, h1, h2, hget2]

theorem step_out_of_range (opts : List MenuOption) (s : String)
    (hd : isdigit s = true) (hlen : opts.length ≠ 1)
    (hr : ¬(1 ≤ strToNat s ∧ strToNat s ≤ opts.length)) :
    get_user_choice_step opts s =
      { printed := ["Invalid choice. Please select a valid number."],
        invoked := [], ctrl := Ctrl.continueLoop } := by
  simp only [get_user_choice_step, hd, if_true]
  rw [if_neg hlen, if_neg hr]

theorem step_single (opts : List MenuOption) (s : String)
    (hd : isdigit s = true) (hlen : opts.length = 1) :
    get_user_choice_step opts s =
      { printed := [], invoked := [], ctrl := Ctrl.raiseExc PyExc.typeError } := by
  simp [get_user_choice_step, hd, hlen]

theorem ws_not_digit (c : Char) (h : c.isWhitespace = true) : c.isDigit = false := by
  simp only [Char.isWhitespace, Bool.or_eq_true, decide_eq_true_eq] at h
  rcases h with ((h | h) | h) | h <;> subst h <;> decide

/-! Claim theorems. -/

/-- C1 counterexample: with a single-option list, input "1" is in range but
invokes nothing — the iteration raises TypeError from calling the options
list itself — and with the non-callable action bound at position 1 of a
two-option list, input "1" also invokes nothing. -/
theorem c1_counterexample :
    (get_user_choice_step [⟨1, "Only", PyAction.func "f1"⟩] "1").invoked = [] ∧
    (get_user_choice_step [⟨1, "Only", PyAction.func "f1"⟩] "1").ctrl =
      Ctrl.raiseExc PyExc.typeError ∧
    (get_user_choice_step [⟨1, "Current Budget", PyAction.strVal "test"⟩,
                           ⟨2, "B", PyAction.func "f2"⟩] "1").invoked = [] := by
  decide

/-- C1 (amended): for every options list with at least two options and every
integer i with 1 ≤ i ≤ len(options) whose selected tuple (the one at index
i-1) carries a callable action, feeding the input string str(i) to the
choice loop invokes exactly that action exactly once, with no other action
invoked and nothing printed, and control re-enters the prompt loop. -/
theorem c1_amended_selects_callable_option
    (opts : List MenuOption) (i : Int) (t : MenuOption)
    (hlen : 2 ≤ opts.length) (h1 : 1 ≤ i) (h2 : i ≤ opts.length)
    (hget : opts.get? (i.toNat - 1) = some t) (hc : callable t.action = true) :
    get_user_choice_step opts (pyStr i) =
      { printed := [], invoked := [t.action], ctrl := Ctrl.continueLoop } := by
  have h0 : 0 ≤ i := by omega
  rw [pyStr_nonneg i h0]
  have hd := natRepr_isdigit i.toNat
  have hv := natRepr_val i.toNat
  have hlen1 : opts.length ≠ 1 := by omega
  have hr1 : 1 ≤ strToNat (natRepr i.toNat) := by rw [hv]; omega
  have hr2 : strToNat (natRepr i.toNat) ≤ opts.length := by rw [hv]; omega
  have hget2 : opts.get? (strToNat (natRepr i.toNat) - 1) = some t := by rw [hv]; exact hget
  rw [step_in_range opts _ t hd hlen1 hr1 hr2 hget2, if_pos hc]

/-- C1 witness: on a concrete two-option menu, the input str(2) invokes
exactly option 2's action. -/
theorem c1_amended_witness :
    get_user_choice_step optsAB (pyStr 2) =
      { printed := [], invoked := [PyAction.func "fb"], ctrl := Ctrl.continueLoop } :=
  c1_amended_selects_callable_option optsAB 2 ⟨2, "B", PyAction.func "fb"⟩
    (by decide) (by decide) (by decide) (by decide) (by decide)

/-- C2: for every options list with at least two options and every input
string that is not a nonempty digit string, the loop prints the
invalid-input message, invokes no action, and re-enters the prompt loop
rather than raising to the caller. -/
theorem c2_nonnumeric_rejected (opts : List MenuOption) (s : String)
    (hlen : 2 ≤ opts.length) (h : isdigit s = false) :
    get_user_choice_step opts s =
      { printed := ["Invalid input. Please enter a number."],
        invoked := [], ctrl := Ctrl.continueLoop } :=
  step_not_digit opts s h

/-- C2 witness: the concrete non-numeric input "hello" on a two-option
menu. -/
theorem c2_witness :
    isdigit "hello" = false ∧
    get_user_choice_step optsAB "hello" =
      { printed := ["Invalid input. Please enter a number."],
        invoked := [], ctrl := Ctrl.continueLoop } :=
  ⟨by decide, c2_nonnumeric_rejected optsAB "hello" (by decide) (by decide)⟩

/-- C3 counterexample: the integer -1 lies outside [1, 2], but feeding
str(-1) to the loop over a two-option menu yields the invalid-input
(NotANumber) message, not the invalid-choice (OutOfRange) one. -/
theorem c3_counterexample :
    get_user_choice_step optsAB (pyStr (-1)) =
      { printed := ["Invalid input. Please enter a number."],
        invoked := [], ctrl := Ctrl.continueLoop } ∧
    (get_user_choice_step optsAB (pyStr (-1))).printed ≠
      ["Invalid choice. Please select a valid number."] := by
  decide

/-- C3 (amended): for every options list with at least two options and every
non-negative integer i outside [1, len(options)], feeding str(i) to the loop
prints the invalid-choice message, invokes no action, and re-enters the
prompt loop; negative integers are instead rejected by the digit test. -/
theorem c3_amended_out_of_range (opts : List MenuOption) (i : Int)
    (hlen : 2 ≤ opts.length) (h0 : 0 ≤ i)
    (hout : i = 0 ∨ (opts.length : Int) < i) :
    get_user_choice_step opts (pyStr i) =
      { printed := ["Invalid choice. Please select a valid number."],
        invoked := [], ctrl := Ctrl.continueLoop } := by
  rw [pyStr_nonneg i h0]
  have hd := natRepr_isdigit i.toNat
  have hv := natRepr_val i.toNat
  have hlen1 : opts.length ≠ 1 := by omega
  have hr : ¬(1 ≤ strToNat (natRepr i.toNat) ∧ strToNat (natRepr i.toNat) ≤ opts.length) := by
    rw [hv]; rcases hout with h | h <;> omega
  exact step_out_of_range opts _ hd hlen1 hr

/-- C3 witness: the concrete out-of-range input str(3) on a two-option
menu. -/
theorem c3_witness :
    get_user_choice_step optsAB (pyStr 3) =
      { printed := ["Invalid choice. Please select a valid number."],
        invoked := [], ctrl := Ctrl.continueLoop } :=
  c3_amended_out_of_range optsAB 3 (by decide) (by decide) (by decide)

/-- C4: for every session context, every menu of the registry built by
menu_holder lists option numbers that are exactly 1..N in ascending order,
with no gaps and no duplicates. -/
theorem c4_positions_contiguous (active_user : Option String)
    (entry : String × List MenuOption) (h : entry ∈ menu_holder active_user) :
    entry.2.map MenuOption.number = (List.range' 1 entry.2.length).map Int.ofNat := by
  simp only [menu_holder, List.mem_cons, List.not_mem_nil, or_false] at h
  rcases h with h | h | h | h | h | h <;> subst h <;> rfl

/-- C4 witness: the Create Account menu of the registry for the empty
session context has positions exactly 1..2. -/
theorem c4_witness :
    (("Create Account",
       [⟨1, "Run Create Account Program", PyAction.func "create_new_account_interface"⟩,
        ⟨2, "Return to Main Menu", PyAction.func "main_menu"⟩]) : String × List MenuOption)
      ∈ menu_holder none ∧
    ([⟨1, "Run Create Account Program", PyAction.func "create_new_account_interface"⟩,
      ⟨2, "Return to Main Menu", PyAction.func "main_menu"⟩] : List MenuOption).map
        MenuOption.number = (List.range' 1 2).map Int.ofNat :=
  ⟨by decide,
   c4_positions_contiguous none
     ("Create Account",
       [⟨1, "Run Create Account Program", PyAction.func "create_new_account_interface"⟩,
        ⟨2, "Return to Main Menu", PyAction.func "main_menu"⟩]) (by decide)⟩

/-- C5: on the Budgeted menu of the registry — five options, option 1 bound
to the non-callable string 'test' — entering "1" prints that 'Current
Budget' is not a valid option, invokes nothing, does not raise, does not
navigate anywhere, and control re-enters the same menu's prompt loop. -/
theorem c5_budgeted_option1_not_valid (active_user : Option String)
    (opts : List MenuOption)
    (h : (menu_holder active_user).lookup "Budgeted" = some opts) :
    opts.length = 5 ∧
    get_user_choice_step opts "1" =
      { printed := [quoted "Current Budget" ++ " is not a valid option."],
        invoked := [], ctrl := Ctrl.continueLoop } := by
  have hb : (menu_holder active_user).lookup "Budgeted" = some budgetedOpts := rfl
  rw [hb] at h
  injection h with h
  subst h
  exact ⟨rfl, rfl⟩

/-- C5 witness: the registry for the empty session context at its Budgeted
menu. -/
theorem c5_witness :
    (menu_holder none).lookup "Budgeted" = some budgetedOpts ∧
    (budgetedOpts.length = 5 ∧
     get_user_choice_step budgetedOpts "1" =
       { printed := [quoted "Current Budget" ++ " is not a valid option."],
         invoked := [], ctrl := Ctrl.continueLoop }) :=
  ⟨rfl, c5_budgeted_option1_not_valid none budgetedOpts rfl⟩

/-- C6 counterexample: on a single-option list, the non-digit input "abc"
does not invoke the option — it is rejected as non-numeric — and the digit
input "1" does not invoke it either: the iteration raises TypeError. -/
theorem c6_counterexample :
    (get_user_choice_step [⟨1, "Only", PyAction.func "only_action"⟩] "abc").invoked = [] ∧
    (get_user_choice_step [⟨1, "Only", PyAction.func "only_action"⟩] "abc").printed =
      ["Invalid input. Please enter a number."] ∧
    (get_user_choice_step [⟨1, "Only", PyAction.func "only_action"⟩] "1").invoked = [] ∧
    (get_user_choice_step [⟨1, "Only", PyAction.func "only_action"⟩] "1").ctrl =
      Ctrl.raiseExc PyExc.typeError := by
  decide

/-- C6 (amended): for a single-option list, only digit-string inputs reach
the single-option special case, which calls the options collection itself as
a zero-argument callable — raising TypeError instead of invoking the
option — while every non-digit input is rejected with the invalid-input
message and invokes nothing. -/
theorem c6_amended_single_option (t : MenuOption) (s : String) :
    (isdigit s = true →
      get_user_choice_step [t] s =
        { printed := [], invoked := [], ctrl := Ctrl.raiseExc PyExc.typeError }) ∧
    (isdigit s = false →
      get_user_choice_step [t] s =
        { printed := ["Invalid input. Please enter a number."],
          invoked := [], ctrl := Ctrl.continueLoop }) :=
  ⟨fun h => step_single [t] s h rfl, fun h => step_not_digit [t] s h⟩

/-- C6 witness: the digit input "7" raises TypeError on a single-option
list, the non-digit input "xyz" is rejected with the invalid-input
message. -/
theorem c6_witness :
    get_user_choice_step [⟨1, "Only", PyAction.func "only_action"⟩] "7" =
      { printed := [], invoked := [], ctrl := Ctrl.raiseExc PyExc.typeError } ∧
    get_user_choice_step [⟨1, "Only", PyAction.func "only_action"⟩] "xyz" =
      { printed := ["Invalid input. Please enter a number."],
        invoked := [], ctrl := Ctrl.continueLoop } :=
  ⟨(c6_amended_single_option ⟨1, "Only", PyAction.func "only_action"⟩ "7").1 (by decide),
   (c6_amended_single_option ⟨1, "Only", PyAction.func "only_action"⟩ "xyz").2 (by decide)⟩

/-- C7 counterexample: on a two-option menu the whitespace-surrounded
input " 1 " is rejected with the invalid-input message while the bare "1"
selects option 1, so the two are not resolved alike. -/
theorem c7_counterexample :
    get_user_choice_step optsAB " 1 " =
      { printed := ["Invalid input. Please enter a number."],
        invoked := [], ctrl := Ctrl.continueLoop } ∧
    get_user_choice_step optsAB "1" =
      { printed := [], invoked := [PyAction.func "fa"], ctrl := Ctrl.continueLoop } ∧
    get_user_choice_step optsAB " 1 " ≠ get_user_choice_step optsAB "1" := by
  decide

/-- C7 (amended): an input containing any whitespace character — in
particular an in-range integer literal surrounded by whitespace — fails the
digit test and is rejected with the invalid-input message, invoking
nothing; only bare digit strings are accepted selections. -/
theorem c7_amended_whitespace_rejected (opts : List MenuOption) (s : String)
    (hlen : 2 ≤ opts.length) (hws : s.toList.any Char.isWhitespace = true) :
    get_user_choice_step opts s =
      { printed := ["Invalid input. Please enter a number."],
        invoked := [], ctrl := Ctrl.continueLoop } := by
  obtain ⟨c, hc, hw⟩ := List.any_eq_true.mp hws
  have hnd : c.isDigit = false := ws_not_digit c hw
  have hall : s.toList.all Char.isDigit = false := by
    cases hA : s.toList.all Char.isDigit
    · rfl
    · exact absurd (List.all_eq_true.mp hA c hc) (by simp [hnd])
  have h : isdigit s = false := by
    unfold isdigit
    rw [hall, Bool.and_false]
  exact step_not_digit opts s h

/-- C7 witness: the concrete whitespace-surrounded input " 1 " on a
two-option menu. -/
theorem c7_witness :
    (" 1 ").toList.any Char.isWhitespace = true ∧
    get_user_choice_step optsAB " 1 " =
      { printed := ["Invalid input. Please enter a number."],
        invoked := [], ctrl := Ctrl.continueLoop } :=
  ⟨by decide, c7_amended_whitespace_rejected optsAB " 1 " (by decide) (by decide)⟩

/-- C8 counterexample: on a single-option list the digit input "1" ends the
iteration neither by re-entering the prompt loop nor through an invoked
action: the body raises TypeError from calling the options list. -/
theorem c8_counterexample :
    (get_user_choice_step [⟨1, "Exit", PyAction.func "exit_program"⟩] "1").ctrl =
      Ctrl.raiseExc PyExc.typeError ∧
    (get_user_choice_step [⟨1, "Exit", PyAction.func "exit_program"⟩] "1").ctrl ≠
      Ctrl.continueLoop := by
  decide

/-- C8 (amended): the loop body never breaks or returns: every iteration
either falls through back to the prompt — after invalid input, an
out-of-range number, a non-callable action, or a callable action that was
invoked and returned — or raises an exception that propagates to the
caller, the only raising iteration being the single-option special case on
a digit input. -/
theorem c8_amended_no_normal_return (opts : List MenuOption) (s : String) :
    (get_user_choice_step opts s).ctrl = Ctrl.continueLoop ∨
    (opts.length = 1 ∧ isdigit s = true ∧
      (get_user_choice_step opts s).ctrl = Ctrl.raiseExc PyExc.typeError) := by
  cases hd : isdigit s with
  | false => exact Or.inl (by rw [step_not_digit opts s hd])
  | true =>
      by_cases hlen : opts.length = 1
      · exact Or.inr ⟨hlen, rfl, by rw [step_single opts s hd hlen]⟩
      · by_cases hr : 1 ≤ strToNat s ∧ strToNat s ≤ opts.length
        · cases hget : opts.get? (strToNat s - 1) with
          | none =>
              exfalso
              have := List.get?_eq_none.mp hget
              omega
          | some t =>
              refine Or.inl ?_
              rw [step_in_range opts s t hd hlen hr.1 hr.2 hget]
              by_cases hc : callable t.action = true
              · rw [if_pos hc]
              · rw [if_neg hc]
        · exact Or.inl (by rw [step_out_of_range opts s hd hlen hr])

/-- C9: debt_to_asset ignores both of its parameters — it computes from the
instance fields total_debt and assets — so on a freshly constructed Budget,
whose assets field is 0, every call fails with ZeroDivisionError whatever
the arguments, while an instance with total_debt 3000 and assets 6000
returns 50 whatever the arguments. -/
theorem c9_debt_to_asset_ignores_args :
    (∀ (b : Budget) (td ta td2 ta2 : ℚ), b.debt_to_asset td ta = b.debt_to_asset td2 ta2) ∧
    (∀ td ta : ℚ, Budget.new.debt_to_asset td ta = Except.error PyErr.zeroDivisionError) ∧
    (∀ td ta : ℚ,
      ({ Budget.new with total_debt := 3000, assets := 6000 } : Budget).debt_to_asset td ta =
        Except.ok 50) := by
  refine ⟨fun b td ta td2 ta2 => rfl, fun td ta => rfl, fun td ta => ?_⟩
  norm_num [Budget.debt_to_asset]

/-- C10: a REMOVE call passing a debt-name string on a Budget whose
current_debt entries were all appended by the ADD branch (so are
debt dictionaries) finds no membership match, prints the not-found
message, and leaves the instance — in particular current_debt —
unchanged. -/
theorem c10_remove_never_removes (b : Budget) (name : String) (total : PyVal)
    (h : ∀ e ∈ b.current_debt, isDebtDict e = true) :
    b.add_remove_debt (PyVal.str name) total REMOVE = (b, ["Debt not found."]) := by
  have hA : REMOVE ≠ ADD := by decide
  have hmem : PyVal.str name ∉ b.current_debt := by
    intro hm
    have := h _ hm
    simp [isDebtDict] at this
  simp [Budget.add_remove_debt, hA, hmem]

/-- C10 witness: a Budget holding one ADD-branch debt dictionary for
'credit card'; removing by the name string reports not found and changes
nothing. -/
theorem c10_witness :
    (∀ e ∈ debtSample.current_debt, isDebtDict e = true) ∧
    debtSample.add_remove_debt (PyVal.str "credit card") (PyVal.num 3000) REMOVE =
      (debtSample, ["Debt not found."]) :=
  ⟨by decide, c10_remove_never_removes debtSample "credit card" (PyVal.num 3000) (by decide)⟩
